import Mathlib

/-!
Verification of the client-side simulation of the local-legends repository
(src/frontend/game.js and src/frontend/chat.js), shallowly embedded over ℚ.
JS numbers are modelled as rationals; DOM-only effects (drawing, CSS classes,
focus) are modelled as state fields or derived read-outs where a claim
mentions them.
-/

namespace LocalLegends

/-- Facing direction of the player sprite (game.js `currentDirection`). -/
inductive Direction
  | front
  | front_left
  | front_right
  | behind
  | behind_left
  | behind_right
  deriving DecidableEq

/-- game.js `this.player` (the fields the simulation reads and writes;
`color` and the image objects are render-only). -/
structure Player where
  x : ℚ
  y : ℚ
  width : ℚ
  height : ℚ
  speed : ℚ
  deriving DecidableEq

/-- A game.js NPC object: `x`/`y` are the fractional (0–1) map positions. -/
structure NPC where
  name : String
  x : ℚ
  y : ℚ
  width : ℚ
  height : ℚ
  deriving DecidableEq

/-- game.js `this.camera`. -/
structure Camera where
  x : ℚ
  y : ℚ
  deriving DecidableEq

/-- The `this.keys` flags game.js `handleInput` reads. -/
structure Keys where
  w : Bool
  a : Bool
  s : Bool
  d : Bool
  arrowup : Bool
  arrowdown : Bool
  arrowleft : Bool
  arrowright : Bool
  deriving DecidableEq

/-- A rectangle of the obstacle list in game.js `checkCollision`. -/
structure Obstacle where
  x : ℚ
  y : ℚ
  width : ℚ
  height : ℚ
  deriving DecidableEq

/-- The state of the game.js `Game` object that the claims concern.
`chatOpen` models `this.chatSystem && this.chatSystem.isChatOpen()`;
`frameCount` starts out `undefined` in JS, modelled as `none`. -/
structure Game where
  screenWidth : ℚ
  screenHeight : ℚ
  mapWidth : ℚ
  mapHeight : ℚ
  mapOffsetX : ℚ
  mapOffsetY : ℚ
  mapLoaded : Bool
  camera : Camera
  player : Player
  npcs : List NPC
  nearbyNPC : Option NPC
  interactionDistance : ℚ
  currentDirection : Direction
  lastMovementDirection : Int × Int
  keys : Keys
  ctrlPressed : Bool
  debugVisible : Bool
  chatOpen : Bool
  frameCount : Option Nat
  deriving DecidableEq

/-- The obstacle list of game.js `checkCollision`: the source contains only
commented-out example entries, so the list is empty. -/
def obstacles : List Obstacle := []

/-- game.js `checkCollision(x, y)`. -/
def Game.checkCollision (g : Game) (x y : ℚ) : Bool :=
  let halfWidth := g.player.width / 2
  let halfHeight := g.player.height / 2
  let minX := g.mapOffsetX + halfWidth
  let maxX := g.mapOffsetX + g.mapWidth - halfWidth
  let minY := g.mapOffsetY + halfHeight
  let maxY := g.mapOffsetY + g.mapHeight - halfHeight
  if x < minX ∨ x > maxX ∨ y < minY ∨ y > maxY then true
  else if obstacles.any fun ob =>
      decide (x ≥ ob.x ∧ x ≤ ob.x + ob.width ∧ y ≥ ob.y ∧ y ≤ ob.y + ob.height) then true
  else false

/-- game.js `updateCamera()`. -/
def Game.updateCamera (g : Game) : Game :=
  let targetCameraX := g.player.x - g.screenWidth / 2
  let targetCameraY := g.player.y - g.screenHeight / 2
  let minCameraX := g.mapOffsetX
  let maxCameraX := g.mapOffsetX + g.mapWidth - g.screenWidth
  let minCameraY := g.mapOffsetY
  let maxCameraY := g.mapOffsetY + g.mapHeight - g.screenHeight
  let cx := if g.mapWidth > g.screenWidth
    then max minCameraX (min maxCameraX targetCameraX) else g.mapOffsetX
  let cy := if g.mapHeight > g.screenHeight
    then max minCameraY (min maxCameraY targetCameraY) else g.mapOffsetY
  { g with camera := { x := cx, y := cy } }

/-- JS `Math.round` (round half toward positive infinity). -/
def jsRound (x : ℚ) : Int := ⌊x + 1 / 2⌋

/-- What the game.js `updateUI` position element displays: grid coordinates
in debug mode, rounded pixel coordinates otherwise. -/
inductive Readout
  | grid (gx gy : Int)
  | pixels (px py : Int)
  deriving DecidableEq

/-- The position read-out game.js `updateUI()` computes. -/
def Game.positionReadout (g : Game) : Readout :=
  let p : Int × Int :=
    if g.mapLoaded ∧ 0 < g.mapWidth ∧ 0 < g.mapHeight then
      let relativeX := (g.player.x - g.mapOffsetX) / g.mapWidth
      let relativeY := (g.player.y - g.mapOffsetY) / g.mapHeight
      (jsRound (max 0 (min 100 (relativeX * 100))),
       jsRound (max 0 (min 100 (relativeY * 100))))
    else (0, 0)
  if g.debugVisible then .grid p.1 p.2
  else .pixels (jsRound g.player.x) (jsRound g.player.y)

/-- game.js `movePlayer(newX, newY)`; the `updateUI()` call only refreshes
the derived `positionReadout`. -/
def Game.movePlayer (g : Game) (newX newY : ℚ) : Game :=
  if g.checkCollision newX newY then g
  else ({ g with player := { g.player with x := newX, y := newY } }).updateCamera

/-- game.js `updatePlayerDirection(movementX, movementY)` (the sprite-image
swap is display-only; the selected direction is `currentDirection`). -/
def Game.updatePlayerDirection (g : Game) (movementX movementY : Int) : Game :=
  let newDirection :=
    if movementY < 0 then
      if movementX < 0 then Direction.behind_left
      else if movementX > 0 then Direction.behind_right
      else Direction.behind
    else if movementY > 0 then
      if movementX < 0 then Direction.front_left
      else if movementX > 0 then Direction.front_right
      else Direction.front
    else if movementX < 0 then Direction.front_left
    else if movementX > 0 then Direction.front_right
    else g.currentDirection
  { g with currentDirection := newDirection }

/-- The candidate position and movement vector game.js `handleInput` builds
from the held keys: `(newX, newY, movementX, movementY)`.  The `s`/`down`
branch overwrites `movementY` after the `w`/`up` branch, as in the source. -/
def Game.inputTarget (g : Game) : ℚ × ℚ × Int × Int :=
  let currentSpeed := if g.ctrlPressed then g.player.speed * 2 else g.player.speed
  let a1 : ℚ × Int :=
    if g.keys.w || g.keys.arrowup then (g.player.y - currentSpeed, -1) else (g.player.y, 0)
  let a2 : ℚ × Int :=
    if g.keys.s || g.keys.arrowdown then (a1.1 + currentSpeed, 1) else a1
  let b1 : ℚ × Int :=
    if g.keys.a || g.keys.arrowleft then (g.player.x - currentSpeed, -1) else (g.player.x, 0)
  let b2 : ℚ × Int :=
    if g.keys.d || g.keys.arrowright then (b1.1 + currentSpeed, 1) else b1
  (b2.1, a2.1, b2.2, a2.2)

/-- Squared player–NPC distance, with the NPC's fractional position converted
to world coordinates as in game.js `checkNPCProximity`.  The source compares
`Math.sqrt` of this value; the comparisons are carried on the squares, which
is exact (see `sqrt_lt_iff_sq` and `sqrt_lt_sqrt_iff_sq` below). -/
def Game.dist2 (g : Game) (npc : NPC) : ℚ :=
  let npcWorldX := g.mapOffsetX + npc.x * g.mapWidth
  let npcWorldY := g.mapOffsetY + npc.y * g.mapHeight
  let dx := g.player.x - npcWorldX
  let dy := g.player.y - npcWorldY
  dx * dx + dy * dy

/-- `Math.sqrt d2 < r`, expressed on the square (exact for `0 ≤ d2`). -/
def distLtP (d2 r : ℚ) : Prop := 0 < r ∧ d2 < r * r

instance (d2 r : ℚ) : Decidable (distLtP d2 r) :=
  inferInstanceAs (Decidable (0 < r ∧ d2 < r * r))

/-- `Math.sqrt d2 < closestDistance`, where `closestDistance` starts at
`Infinity` (`none`) and later holds the distance of the stored square. -/
def closerThanP (d2 : ℚ) : Option ℚ → Prop
  | none => True
  | some c2 => d2 < c2

instance (d2 : ℚ) : (c : Option ℚ) → Decidable (closerThanP d2 c)
  | none => .isTrue trivial
  | some c2 => inferInstanceAs (Decidable (d2 < c2))

/-- One iteration of the `forEach` in game.js `checkNPCProximity`:
`acc = (closestNPC, closestDistance)`. -/
def Game.proximityStep (g : Game) (acc : Option NPC × Option ℚ) (npc : NPC) :
    Option NPC × Option ℚ :=
  let d2 := g.dist2 npc
  if distLtP d2 g.interactionDistance ∧ closerThanP d2 acc.2 then (some npc, some d2)
  else acc

/-- The full scan of game.js `checkNPCProximity` over `this.npcs`. -/
def Game.proximityScan (g : Game) : Option NPC × Option ℚ :=
  g.npcs.foldl g.proximityStep (none, none)

/-- The NPC game.js `checkNPCProximity` ends up selecting. -/
def Game.selectNearby (g : Game) : Option NPC :=
  g.proximityScan.1

/-- The state update of game.js `checkNPCProximity` (the source assigns only
when the selection differs, which yields the same final value; the prompt
repositioning is DOM-only). -/
def Game.checkNPCProximityUpd (g : Game) : Game :=
  { g with nearbyNPC := g.selectNearby }

/-- game.js `handleInput()`: the per-tick movement step. -/
def Game.handleInput (g : Game) : Game :=
  if g.chatOpen then g
  else
    match g.inputTarget with
    | (newX, newY, movementX, movementY) =>
      let g1 :=
        if movementX ≠ 0 ∨ movementY ≠ 0 then
          ({ g with lastMovementDirection := (movementX, movementY) }).updatePlayerDirection
            movementX movementY
        else g
      (g1.movePlayer newX newY).checkNPCProximityUpd

/-- game.js `ensureConsistentCharacterSizes()`.  The guard
`!this.player.width || this.player.width === 0` is falsy exactly when the
width is `0` (for a non-NaN number). -/
def Game.ensureConsistentCharacterSizes (g : Game) : Game :=
  if g.player.width = 0 then g
  else
    let targetSize := g.player.width
    { g with npcs := g.npcs.map fun npc =>
        if npc.width ≠ targetSize ∨ npc.height ≠ targetSize then
          { npc with width := targetSize, height := targetSize }
        else npc }

/-- The consistency-pass cadence of game.js `gameLoop()`: `frameCount` is
`undefined` on the first frame (so `undefined % 60 === 0` is false), then
`(this.frameCount || 0) + 1`. -/
def Game.gameLoopSizeStep (g : Game) : Game :=
  let doPass : Bool :=
    match g.frameCount with
    | none => false
    | some n => n % 60 == 0
  let g1 := if doPass then g.ensureConsistentCharacterSizes else g
  { g1 with frameCount := some ((match g.frameCount with | none => 0 | some n => n) + 1) }

/-- Duration (ms) of the game.js `movePlayerTo` easing animation. -/
def animDuration : ℚ := 500

/-- A pending game.js `movePlayerTo` animation (the values its `animate`
closure captured). -/
structure Anim where
  startX : ℚ
  startY : ℚ
  targetX : ℚ
  targetY : ℚ
  startTime : ℚ
  deriving DecidableEq

/-- One `animate()` callback of game.js `movePlayerTo`, run at wall-clock
time `now`.  Note that it calls `movePlayer` without consulting the chat
state. -/
def Game.animStep (g : Game) (anim : Anim) (now : ℚ) : Game :=
  let elapsed := now - anim.startTime
  let progress := min (elapsed / animDuration) 1
  let easeProgress := 1 - (1 - progress) ^ 3
  let newX := anim.startX + (anim.targetX - anim.startX) * easeProgress
  let newY := anim.startY + (anim.targetY - anim.startY) * easeProgress
  g.movePlayer newX newY

/-- game.js `movePlayerTo(x, y)`: picks the sprite direction from the click
delta, records the easing run, and plays its first (`elapsed = 0`) frame
synchronously. -/
def Game.movePlayerTo (g : Game) (x y : ℚ) (now : ℚ) : Game × Anim :=
  let deltaX := x - g.player.x
  let deltaY := y - g.player.y
  let movementX : Int := if deltaX > 0 then 1 else if deltaX < 0 then -1 else 0
  let movementY : Int := if deltaY > 0 then 1 else if deltaY < 0 then -1 else 0
  let g1 := g.updatePlayerDirection movementX movementY
  let anim : Anim :=
    { startX := g.player.x, startY := g.player.y, targetX := x, targetY := y, startTime := now }
  (g1.animStep anim now, anim)

/-- The canvas `click` listener installed by game.js `setupEventListeners`.
Returns the new state and the animation it started, if any. -/
def Game.canvasClick (g : Game) (clientX clientY rectLeft rectTop now : ℚ) :
    Game × Option Anim :=
  if g.chatOpen then (g, none)
  else
    let screenX := clientX - rectLeft
    let screenY := clientY - rectTop
    let worldX := screenX + g.camera.x
    let worldY := screenY + g.camera.y
    let r := g.movePlayerTo worldX worldY now
    (r.1, some r.2)

/-! ### JS string primitives

Kernel-reducible models of the JS string operations chat.js uses, working on
the character list of a `String`. -/

/-- JS whitespace as far as the chat input is concerned. -/
def isJsSpace (c : Char) : Bool :=
  c = ' ' ∨ c = '\t' ∨ c = '\n' ∨ c = '\r'

/-- JS `String.prototype.trim`. -/
def jsTrim (s : String) : String :=
  String.mk (((s.data.dropWhile isJsSpace).reverse.dropWhile isJsSpace).reverse)

/-- Replace every (non-overlapping, leftmost) occurrence of `pat` in the char
list; `fuel` bounds the recursion and is instantiated with the list length. -/
def replaceGo (pat rep : List Char) : Nat → List Char → List Char
  | 0, l => l
  | _ + 1, [] => []
  | fuel + 1, c :: rest =>
    if pat ≠ [] ∧ pat.isPrefixOf (c :: rest) then
      rep ++ replaceGo pat rep fuel ((c :: rest).drop pat.length)
    else c :: replaceGo pat rep fuel rest

/-- JS `String.prototype.replace` with a `/g`-flagged literal pattern. -/
def jsReplace (s pat rep : String) : String :=
  String.mk (replaceGo pat.data rep.data s.data.length s.data)

/-- JS `String.prototype.endsWith`. -/
def jsEndsWith (s suffix : String) : Bool :=
  suffix.data.isSuffixOf s.data

/-- JS `String.prototype.includes` with a single-character needle. -/
def jsIncludesChar (s : String) (c : Char) : Bool :=
  s.data.contains c

/-- Drop the last `n` characters (for the `/x\n$/` → `x` rewrites). -/
def jsDropLast (s : String) (n : Nat) : String :=
  String.mk (s.data.take (s.data.length - n))

/-! ### chat.js model -/

/-- A chat.js message role. -/
inductive Role
  | user
  | assistant
  deriving DecidableEq

/-- An element of the `messageHistory` DOM container: a message div, an error
div from `showError`, or a `loading-message` div (loading / welcome text). -/
inductive Entry
  | msg (role : Role) (content : String) (options : Option (List String))
  | errorMsg (text : String)
  | info (text : String)
  deriving DecidableEq

/-- JS `Map.set` on the conversation-status map (overwrite an existing key in
place, else append).  The key type is `Option String` because
`markNPCAsSpokenTo(this.activeNPC)` can receive `null`. -/
def mapSet (m : List (Option String × Bool)) (k : Option String) (v : Bool) :
    List (Option String × Bool) :=
  if m.any fun p => decide (p.1 = k) then
    m.map fun p => if p.1 = k then (k, v) else p
  else m ++ [(k, v)]

/-- game.js `markNPCAsSpokenTo(npcName)`, reached from chat.js through
`this.game`. -/
def markNPCAsSpokenTo (m : List (Option String × Bool)) (npcName : Option String) :
    List (Option String × Bool) :=
  mapSet m npcName true

/-- The ChatSystem state the claims concern.  `messageInput` is the input
element's value, `inputEnabled` the negation of its `disabled` flag,
`responseOptions`/`responseOptionsHidden` the option-button container, and
`npcConversationStatus` the game-side map written via `markNPCAsSpokenTo`. -/
structure Chat where
  isOpen : Bool
  activeNPC : Option String
  history : List Entry
  messageInput : String
  inputEnabled : Bool
  inputFocused : Bool
  responseOptions : List String
  responseOptionsHidden : Bool
  npcConversationStatus : List (Option String × Bool)
  deriving DecidableEq

/-- chat.js `formatMessageContent(content)`: HTML-looking content passes
through; otherwise sentence ends get line breaks, except at the very end. -/
def formatMessageContent (content : String) : String :=
  if jsIncludesChar content '<' && jsIncludesChar content '>' then content
  else
    let f := jsReplace (jsReplace (jsReplace content ". " ".\n") "! " "!\n") "? " "?\n"
    let fixEnd := fun (s p : String) => if jsEndsWith s (p ++ "\n") then jsDropLast s 1 else s
    fixEnd (fixEnd (fixEnd f ".") "!") "?"

/-- chat.js `addMessageToHistory(role, content, options)` (scrolling is
DOM-only). -/
def Chat.addMessageToHistory (c : Chat) (role : Role) (content : String)
    (options : Option (List String)) : Chat :=
  { c with history := c.history ++ [Entry.msg role (formatMessageContent content) options] }

/-- chat.js `showError(message)`. -/
def Chat.showError (c : Chat) (message : String) : Chat :=
  { c with history := c.history ++ [Entry.errorMsg message] }

/-- chat.js `clearResponseOptions()`. -/
def Chat.clearResponseOptions (c : Chat) : Chat :=
  { c with responseOptions := [], responseOptionsHidden := true }

/-- chat.js `showResponseOptions(options)` (an `undefined` argument behaves
like an empty list: it only clears). -/
def Chat.showResponseOptions (c : Chat) (options : List String) : Chat :=
  let c1 := c.clearResponseOptions
  if options.isEmpty then c1
  else { c1 with responseOptions := options, responseOptionsHidden := false }

/-- chat.js `setInputEnabled(enabled)` (focuses the input when enabling). -/
def Chat.setInputEnabled (c : Chat) (enabled : Bool) : Chat :=
  { c with inputEnabled := enabled,
           inputFocused := if enabled then true else c.inputFocused }

/-- chat.js `hideChat()` (modal hiding is DOM-only; focus returns to the
canvas). -/
def Chat.hideChat (c : Chat) : Chat :=
  { c with isOpen := false, activeNPC := none,
           responseOptions := [], responseOptionsHidden := true,
           inputFocused := false }

/-- The synchronous prefix of chat.js `handleSendMessage`, up to the `await`:
either `none` (the `!message || !this.activeNPC` guard bailed out, nothing
happened) or the updated state together with the `(npc, message)` pair passed
to `interactWithNPC`. -/
def Chat.sendPhase1 (c : Chat) : Option (Chat × String × String) :=
  let message := jsTrim c.messageInput
  match c.activeNPC with
  | none => none
  | some npc =>
    if message = "" then none
    else
      let c1 := c.setInputEnabled false
      let c2 := c1.addMessageToHistory Role.user message none
      let c3 := { c2 with messageInput := "" }
      some (c3.clearResponseOptions, npc, message)

/-- The reply payload `interactWithNPC` resolves with
(`response.response`). -/
structure NPCReply where
  text : String
  options : List String
  deriving DecidableEq

/-- The rest of chat.js `handleSendMessage` once `interactWithNPC` resolves
successfully, applied to whatever the chat state is at resolution time — the
source performs no staleness re-validation.  Note `this.activeNPC` is
re-read here, not captured at request time. -/
def Chat.sendResolveOk (c : Chat) (reply : NPCReply) : Chat :=
  let c1 := c.addMessageToHistory Role.assistant reply.text (some reply.options)
  let c2 := c1.showResponseOptions reply.options
  let c3 := { c2 with
    npcConversationStatus := markNPCAsSpokenTo c2.npcConversationStatus c2.activeNPC }
  c3.setInputEnabled true

/-- The `catch`/`finally` of chat.js `handleSendMessage` when
`interactWithNPC` rejects (again with no staleness re-validation). -/
def Chat.sendResolveErr (c : Chat) : Chat :=
  (c.showError "Failed to send message. Please try again.").setInputEnabled true

/-- A whole send interaction whose network request fails, with no interleaved
events between issue and rejection: the synchronous phase followed by the
error continuation. -/
def Chat.sendFail (c : Chat) : Chat :=
  match c.sendPhase1 with
  | some (c1, _, _) => c1.sendResolveErr
  | none => c

/-- chat.js `showStarterOptions` option texts. -/
def starterOptions : List String := ["Hi!", "What's good here?", "Who are you?"]

/-- chat.js `showWelcomeMessage(npcName)` plus its `showStarterOptions`. -/
def Chat.showWelcomeMessage (c : Chat) (npcName : String) : Chat :=
  let c1 := { c with
    history := c.history ++ [Entry.info ("Start a conversation with " ++ npcName ++ "!")] }
  c1.showResponseOptions starterOptions

/-- The synchronous prefix of chat.js `loadConversationHistory` (the loading
placeholder replaces the history DOM, then the fetch is issued). -/
def Chat.loadHistoryPhase1 (c : Chat) : Chat :=
  { c with history := [Entry.info "Loading conversation..."] }

/-- The rest of `loadConversationHistory` when `getConversationHistory`
resolves, applied at resolution time with the `npcName` captured at call
time; the source performs no staleness re-validation.  `conversations` is
the `history.conversations` object as an association list. -/
def Chat.loadHistoryResolveOk (c : Chat) (npcName : String)
    (conversations : List (String × List (Role × String × Option (List String)))) : Chat :=
  let npcHistory := ((conversations.filter fun p => decide (p.1 = npcName)).headD (npcName, [])).2
  let c1 := { c with history := [] }
  if npcHistory.isEmpty then c1.showWelcomeMessage npcName
  else
    npcHistory.foldl (fun acc m => acc.addMessageToHistory m.1 m.2.1 m.2.2) c1

/-- The `catch` of `loadConversationHistory`: clear and show the welcome
state anyway. -/
def Chat.loadHistoryResolveErr (c : Chat) (npcName : String) : Chat :=
  ({ c with history := [] }).showWelcomeMessage npcName

/-- The sentinel option value chat.js `showResponseOptions` treats
specially. -/
def sentinelOption : String := "[Type your own response]"

/-- chat.js `handleOptionClick(option)`: set the input value, then run
`handleSendMessage` (synchronous phase). -/
def Chat.handleOptionClick (c : Chat) (option : String) : Option (Chat × String × String) :=
  ({ c with messageInput := option }).sendPhase1

/-- The click listener of one response-option button: the resulting state and
the request it sends, if any. -/
def Chat.optionButtonClick (c : Chat) (option : String) : Chat × Option (String × String) :=
  if option = sentinelOption then ({ c with inputFocused := true }, none)
  else
    match c.handleOptionClick option with
    | none => ({ c with messageInput := option }, none)
    | some (c1, npc, msg) => (c1, some (npc, msg))

/-- Typing `text` into the free-text input and invoking send (synchronous
phase): the resulting state and the request it sends, if any. -/
def Chat.typeAndSend (c : Chat) (text : String) : Chat × Option (String × String) :=
  match ({ c with messageInput := text }).sendPhase1 with
  | none => ({ c with messageInput := text }, none)
  | some (c1, npc, msg) => (c1, some (npc, msg))

/-! ### Concrete states used by witnesses and counterexamples -/

/-- All-released keyboard state. -/
def noKeys : Keys :=
  { w := false, a := false, s := false, d := false,
    arrowup := false, arrowdown := false, arrowleft := false, arrowright := false }

/-- A loaded 1000×1000 map on an 800×600 screen with the map centred at the
origin offset, the player mid-map; matches a state reachable after
`loadMap`/`calculateMapDimensions` up to concrete numbers. -/
def exGame : Game :=
  { screenWidth := 800, screenHeight := 600,
    mapWidth := 1000, mapHeight := 1000,
    mapOffsetX := 0, mapOffsetY := 0,
    mapLoaded := true,
    camera := { x := 0, y := 0 },
    player := { x := 500, y := 400, width := 40, height := 40, speed := 3 },
    npcs := [], nearbyNPC := none,
    interactionDistance := 60,
    currentDirection := Direction.front,
    lastMovementDirection := (0, 0),
    keys := noKeys, ctrlPressed := false,
    debugVisible := false, chatOpen := false, frameCount := none }

/-- `exGame` with the player against the top boundary and the `w` key held:
the pending move up is rejected by `checkCollision`. -/
def exGameTopEdge : Game :=
  { exGame with
    player := { exGame.player with y := 20 },
    keys := { noKeys with w := true } }

/-- `exGame` while the chat modal is open. -/
def exGameChatOpen : Game :=
  { exGame with chatOpen := true, player := { exGame.player with x := 100, y := 100 } }

/-- An animation started by a canvas click at (200, 100) before the chat
opened (start time 0). -/
def exAnim : Anim :=
  { startX := 100, startY := 100, targetX := 200, targetY := 100, startTime := 0 }

/-- An NPC at map fraction (0.1, 0.1) — world position (100, 100) on
`exGame`'s map. -/
def exNpcNear : NPC := { name := "la_jolla", x := 1 / 10, y := 1 / 10, width := 40, height := 40 }

/-- An NPC at map fraction (0.5, 0.5) — world position (500, 500), far from
the `exGameProx` player. -/
def exNpcFar : NPC := { name := "clairemont", x := 1 / 2, y := 1 / 2, width := 40, height := 40 }

/-- `exGame` with the player at (110, 110), close to `exNpcNear` only. -/
def exGameProx : Game :=
  { exGame with
    player := { exGame.player with x := 110, y := 110 },
    npcs := [exNpcNear, exNpcFar] }

/-- A pre-map-load state: player size still 0 while a fallback NPC carries
the `|| 100` default size, as after `setupNPCsFallback` runs before the map
image loads. -/
def exGameZeroWidth : Game :=
  { exGame with
    mapLoaded := false,
    player := { exGame.player with width := 0, height := 0 },
    npcs := [{ name := "la_jolla", x := 15 / 100, y := 25 / 100, width := 100, height := 100 }] }

/-- `exGame` with one NPC whose size drifted from the player's. -/
def exGameDrift : Game :=
  { exGame with
    npcs := [{ name := "la_jolla", x := 15 / 100, y := 25 / 100, width := 100, height := 100 }] }

/-- An open chat with `tyler`, `"hi"` typed in the input. -/
def exChatOpen : Chat :=
  { isOpen := true, activeNPC := some "tyler", history := [],
    messageInput := "hi", inputEnabled := true, inputFocused := true,
    responseOptions := [], responseOptionsHidden := true,
    npcConversationStatus := [] }

/-- The chat state after `exChatOpen` issued a send for `"hi"` and the user
then closed the modal while the request was still in flight (`hideChat`
cleared `activeNPC`; the optimistic user entry is still in the DOM). -/
def exChatClosed : Chat :=
  { isOpen := false, activeNPC := none,
    history := [Entry.msg Role.user "hi" none],
    messageInput := "", inputEnabled := false, inputFocused := false,
    responseOptions := [], responseOptionsHidden := true,
    npcConversationStatus := [] }

/-- A reply payload from the dialogue backend. -/
def exReply : NPCReply := { text := "yo", options := ["Cool", "Bye"] }

/-! ## Theorems -/

/-- `updateCamera` never touches the player. -/
theorem updateCamera_player (g : Game) : g.updateCamera.player = g.player := rfl

/-- Unfolding of `checkCollision = false` into the boundary and obstacle
conditions (with the source's empty obstacle list). -/
theorem checkCollision_eq_false_iff (g : Game) (x y : ℚ) :
    g.checkCollision x y = false ↔
      g.mapOffsetX + g.player.width / 2 ≤ x ∧
      x ≤ g.mapOffsetX + g.mapWidth - g.player.width / 2 ∧
      g.mapOffsetY + g.player.height / 2 ≤ y ∧
      y ≤ g.mapOffsetY + g.mapHeight - g.player.height / 2 := by
  simp only [Game.checkCollision, obstacles, List.any_nil, Bool.false_eq_true, if_false]
  constructor
  · intro h
    by_cases hb : x < g.mapOffsetX + g.player.width / 2 ∨
        x > g.mapOffsetX + g.mapWidth - g.player.width / 2 ∨
        y < g.mapOffsetY + g.player.height / 2 ∨
        y > g.mapOffsetY + g.mapHeight - g.player.height / 2
    · simp [hb] at h
    · push_neg at hb
      exact ⟨hb.1, hb.2.1, hb.2.2.1, hb.2.2.2⟩
  · intro h
    have hb : ¬ (x < g.mapOffsetX + g.player.width / 2 ∨
        x > g.mapOffsetX + g.mapWidth - g.player.width / 2 ∨
        y < g.mapOffsetY + g.player.height / 2 ∨
        y > g.mapOffsetY + g.mapHeight - g.player.height / 2) := by
      push_neg
      exact ⟨h.1, h.2.1, h.2.2.1, h.2.2.2⟩
    simp [hb]

/-- C1: after `movePlayer`, a player that started inside the clamped interior
stays inside `[mapOffset + halfSize, mapOffset + mapExtent − halfSize]` on
both axes; a colliding target (out of bounds, or inside an obstacle
rectangle — the source list is empty) is rejected as a whole, leaving the
position unchanged. -/
theorem movePlayer_containment (g : Game) (newX newY : ℚ)
    (hx1 : g.mapOffsetX + g.player.width / 2 ≤ g.player.x)
    (hx2 : g.player.x ≤ g.mapOffsetX + g.mapWidth - g.player.width / 2)
    (hy1 : g.mapOffsetY + g.player.height / 2 ≤ g.player.y)
    (hy2 : g.player.y ≤ g.mapOffsetY + g.mapHeight - g.player.height / 2) :
    (g.mapOffsetX + g.player.width / 2 ≤ (g.movePlayer newX newY).player.x ∧
     (g.movePlayer newX newY).player.x ≤ g.mapOffsetX + g.mapWidth - g.player.width / 2 ∧
     g.mapOffsetY + g.player.height / 2 ≤ (g.movePlayer newX newY).player.y ∧
     (g.movePlayer newX newY).player.y ≤ g.mapOffsetY + g.mapHeight - g.player.height / 2) ∧
    (g.checkCollision newX newY = true →
      (g.movePlayer newX newY).player.x = g.player.x ∧
      (g.movePlayer newX newY).player.y = g.player.y) ∧
    (g.checkCollision newX newY = false →
      ∀ ob ∈ obstacles,
        ¬ (newX ≥ ob.x ∧ newX ≤ ob.x + ob.width ∧ newY ≥ ob.y ∧ newY ≤ ob.y + ob.height)) := by
  cases h : g.checkCollision newX newY with
  | true =>
    refine ⟨?_, fun _ => ?_, fun hf => ?_⟩
    · simp [Game.movePlayer, h]
      exact ⟨hx1, hx2, hy1, hy2⟩
    · simp [Game.movePlayer, h]
    · simp [obstacles]
  | false =>
    have hb := (checkCollision_eq_false_iff g newX newY).mp h
    refine ⟨?_, fun hc => ?_, fun _ => ?_⟩
    · simp [Game.movePlayer, h, Game.updateCamera]
      exact ⟨hb.1, hb.2.1, hb.2.2.1, hb.2.2.2⟩
    · simp [h] at hc
    · simp [obstacles]

/-- Witness for C1 on `exGame`: a move to (10, 10) is rejected (the target is
outside the interior), and the position stays put. -/
theorem movePlayer_containment_witness :
    (exGame.movePlayer 10 10).player.x = exGame.player.x ∧
    (exGame.movePlayer 10 10).player.y = exGame.player.y := by
  have h := movePlayer_containment exGame 10 10
    (by norm_num [exGame]) (by norm_num [exGame]) (by norm_num [exGame]) (by norm_num [exGame])
  exact h.2.1 (by norm_num [Game.checkCollision, exGame])

/-- C6: per axis, when the map extent exceeds the screen extent the camera is
the clamp of (player − screen/2) into
`[mapOffset, mapOffset + mapExtent − screen]` (and so lies in that
interval); otherwise the camera is pinned to the map offset. -/
theorem updateCamera_clamps (g : Game) :
    ((g.mapWidth > g.screenWidth →
        g.updateCamera.camera.x =
          max g.mapOffsetX (min (g.mapOffsetX + g.mapWidth - g.screenWidth)
            (g.player.x - g.screenWidth / 2)) ∧
        g.mapOffsetX ≤ g.updateCamera.camera.x ∧
        g.updateCamera.camera.x ≤ g.mapOffsetX + g.mapWidth - g.screenWidth) ∧
      (¬ g.mapWidth > g.screenWidth → g.updateCamera.camera.x = g.mapOffsetX)) ∧
    ((g.mapHeight > g.screenHeight →
        g.updateCamera.camera.y =
          max g.mapOffsetY (min (g.mapOffsetY + g.mapHeight - g.screenHeight)
            (g.player.y - g.screenHeight / 2)) ∧
        g.mapOffsetY ≤ g.updateCamera.camera.y ∧
        g.updateCamera.camera.y ≤ g.mapOffsetY + g.mapHeight - g.screenHeight) ∧
      (¬ g.mapHeight > g.screenHeight → g.updateCamera.camera.y = g.mapOffsetY)) := by
  refine ⟨⟨fun h => ?_, fun h => ?_⟩, ⟨fun h => ?_, fun h => ?_⟩⟩
  · refine ⟨by simp [Game.updateCamera, h], ?_, ?_⟩
    · simp only [Game.updateCamera, if_pos h]
      exact le_max_left _ _
    · simp only [Game.updateCamera, if_pos h]
      exact max_le (by linarith) (min_le_left _ _)
  · simp [Game.updateCamera, h]
  · refine ⟨by simp [Game.updateCamera, h], ?_, ?_⟩
    · simp only [Game.updateCamera, if_pos h]
      exact le_max_left _ _
    · simp only [Game.updateCamera, if_pos h]
      exact max_le (by linarith) (min_le_left _ _)
  · simp [Game.updateCamera, h]

/-- Witness for C6 on `exGame` (map 1000×1000 over an 800×600 screen, player
at (500, 400)): both axes scroll, camera = (100, 100). -/
theorem updateCamera_clamps_witness :
    exGame.updateCamera.camera.x = 100 ∧ exGame.updateCamera.camera.y = 100 := by
  have h := updateCamera_clamps exGame
  have hx := (h.1.1 (by norm_num [exGame])).1
  have hy := (h.2.1 (by norm_num [exGame])).1
  rw [hx, hy]
  norm_num [exGame]

/-! ### Chat field-frame lemmas -/

@[simp] theorem showResponseOptions_history (c : Chat) (opts : List String) :
    (c.showResponseOptions opts).history = c.history := by
  unfold Chat.showResponseOptions Chat.clearResponseOptions
  split <;> rfl

@[simp] theorem showResponseOptions_isOpen (c : Chat) (opts : List String) :
    (c.showResponseOptions opts).isOpen = c.isOpen := by
  unfold Chat.showResponseOptions Chat.clearResponseOptions
  split <;> rfl

@[simp] theorem showResponseOptions_activeNPC (c : Chat) (opts : List String) :
    (c.showResponseOptions opts).activeNPC = c.activeNPC := by
  unfold Chat.showResponseOptions Chat.clearResponseOptions
  split <;> rfl

@[simp] theorem showResponseOptions_status (c : Chat) (opts : List String) :
    (c.showResponseOptions opts).npcConversationStatus = c.npcConversationStatus := by
  unfold Chat.showResponseOptions Chat.clearResponseOptions
  split <;> rfl

@[simp] theorem showResponseOptions_inputEnabled (c : Chat) (opts : List String) :
    (c.showResponseOptions opts).inputEnabled = c.inputEnabled := by
  unfold Chat.showResponseOptions Chat.clearResponseOptions
  split <;> rfl

/-- C2 is corrected: the completion handlers in chat.js do not re-validate
anything.  A `sendMessage` resolution that arrives after the chat was closed
mid-flight (state `exChatClosed`) still appends the assistant entry to the
(hidden) history, still shows the reply's response options, and still
mutates the conversation-status map (under the `null` key, since
`this.activeNPC` was cleared by `hideChat`). -/
theorem stale_resolution_counterexample :
    exChatClosed.isOpen = false ∧
    (exChatClosed.sendResolveOk exReply).history.length = exChatClosed.history.length + 1 ∧
    (exChatClosed.sendResolveOk exReply).responseOptions = exReply.options ∧
    (exChatClosed.sendResolveOk exReply).npcConversationStatus ≠
      exChatClosed.npcConversationStatus := by
  refine ⟨rfl, ?_, ?_, ?_⟩ <;>
    simp [Chat.sendResolveOk, Chat.addMessageToHistory, Chat.showResponseOptions,
      Chat.clearResponseOptions, Chat.setInputEnabled, markNPCAsSpokenTo, mapSet,
      exChatClosed, exReply]

/-- C2 (amended): no completion handler re-validates its request; a
resolution applies its effects to whatever state is current when it lands.
The send resolution always appends the assistant entry, always writes the
engaged flag for the resolution-time `activeNPC` (the `null` key if the chat
was closed), and never restores `isOpen`; the history-fetch failure
continuation always rebuilds the welcome state with starter options. -/
theorem async_resolution_unguarded (c : Chat) (reply : NPCReply) (npcName : String) :
    ((c.sendResolveOk reply).history = c.history ++
      [Entry.msg Role.assistant (formatMessageContent reply.text) (some reply.options)]) ∧
    ((c.sendResolveOk reply).npcConversationStatus =
      markNPCAsSpokenTo c.npcConversationStatus c.activeNPC) ∧
    ((c.sendResolveOk reply).isOpen = c.isOpen) ∧
    ((c.loadHistoryResolveErr npcName).history =
      [Entry.info ("Start a conversation with " ++ npcName ++ "!")]) ∧
    ((c.loadHistoryResolveErr npcName).responseOptions = starterOptions) := by
  refine ⟨?_, ?_, ?_, ?_, ?_⟩
  · simp [Chat.sendResolveOk, Chat.addMessageToHistory, Chat.setInputEnabled]
  · simp [Chat.sendResolveOk, Chat.addMessageToHistory, Chat.setInputEnabled]
  · simp [Chat.sendResolveOk, Chat.addMessageToHistory, Chat.setInputEnabled]
  · simp [Chat.loadHistoryResolveErr, Chat.showWelcomeMessage]
  · simp [Chat.loadHistoryResolveErr, Chat.showWelcomeMessage, Chat.showResponseOptions,
      Chat.clearResponseOptions, starterOptions]

/-- C4: when the send request rejects with the chat still open, the chat is
back to the Open configuration (open, input and send re-enabled), exactly
one error entry is appended after the optimistic user message, and the user
message is not rolled back. -/
theorem send_failure_recovery (c : Chat) (npc : String)
    (hnpc : c.activeNPC = some npc) (hmsg : jsTrim c.messageInput ≠ "")
    (hopen : c.isOpen = true) :
    c.sendFail.isOpen = true ∧
    c.sendFail.inputEnabled = true ∧
    c.sendFail.history = c.history ++
      [Entry.msg Role.user (formatMessageContent (jsTrim c.messageInput)) none,
       Entry.errorMsg "Failed to send message. Please try again."] := by
  unfold Chat.sendFail Chat.sendPhase1
  rw [hnpc]
  simp [hmsg, Chat.sendResolveErr, Chat.showError, Chat.setInputEnabled,
    Chat.addMessageToHistory, Chat.clearResponseOptions, hopen]

/-- Witness for C4 on `exChatOpen` (open chat with tyler, input `"hi"`). -/
theorem send_failure_recovery_witness :
    exChatOpen.sendFail.isOpen = true ∧ exChatOpen.sendFail.inputEnabled = true := by
  have h := send_failure_recovery exChatOpen "tyler" rfl (by decide) rfl
  exact ⟨h.1, h.2.1⟩

/-- C10: a failed exchange never touches the conversation-status map —
`markNPCAsSpokenTo` sits on the success path only, after the assistant reply
is appended, so the whole failing flow (synchronous phase, then the
`catch`/`finally` continuation) preserves `npcConversationStatus`. -/
theorem send_failure_preserves_status (c : Chat) :
    c.sendFail.npcConversationStatus = c.npcConversationStatus := by
  unfold Chat.sendFail Chat.sendPhase1
  cases hnpc : c.activeNPC with
  | none => rfl
  | some npc =>
    by_cases hmsg : jsTrim c.messageInput = ""
    · simp [hmsg]
    · simp [hmsg, Chat.sendResolveErr, Chat.showError, Chat.setInputEnabled,
        Chat.addMessageToHistory, Chat.clearResponseOptions]

/-- C9: clicking a non-sentinel response option is exactly typing that text
and invoking send (same resulting state, same request payload); clicking the
sentinel `[Type your own response]` only focuses the input and sends
nothing. -/
theorem option_click_equiv (c : Chat) (option : String) (h : option ≠ sentinelOption) :
    c.optionButtonClick option = c.typeAndSend option ∧
    c.optionButtonClick sentinelOption = ({ c with inputFocused := true }, none) := by
  constructor
  · unfold Chat.optionButtonClick Chat.typeAndSend Chat.handleOptionClick
    rw [if_neg h]
  · unfold Chat.optionButtonClick
    rw [if_pos rfl]

/-- Witness for C9: clicking the option `"Cool"` on `exChatOpen` equals
typing `"Cool"` and sending. -/
theorem option_click_equiv_witness :
    exChatOpen.optionButtonClick "Cool" = exChatOpen.typeAndSend "Cool" ∧
    exChatOpen.optionButtonClick sentinelOption = ({ exChatOpen with inputFocused := true }, none) :=
  option_click_equiv exChatOpen "Cool" (by decide)

/-- C5 is corrected: when the player's width is still `0` (before the map
image has loaded its dimensions), `ensureConsistentCharacterSizes` bails out
on its guard, so an NPC created with the `|| 100` fallback size keeps a size
different from the player's even right after a consistency pass. -/
theorem ensure_sizes_counterexample :
    ¬ ∀ npc ∈ exGameZeroWidth.ensureConsistentCharacterSizes.npcs,
        npc.width = exGameZeroWidth.ensureConsistentCharacterSizes.player.width ∧
        npc.height = exGameZeroWidth.ensureConsistentCharacterSizes.player.height := by
  intro h
  have h1 := h { name := "la_jolla", x := 15 / 100, y := 25 / 100, width := 100, height := 100 }
    (by norm_num [Game.ensureConsistentCharacterSizes, exGameZeroWidth, exGame])
  have h2 : exGameZeroWidth.ensureConsistentCharacterSizes.player.width = 0 := by
    norm_num [Game.ensureConsistentCharacterSizes, exGameZeroWidth, exGame]
  rw [h2] at h1
  norm_num at h1

/-- C5 (amended): provided the player's width is nonzero, after a consistency
pass every NPC's width and height equal the player's width (the source guards
on, and copies, `player.width`; `player.height` always equals it in states
produced by `calculateCharacterSizes`), and the pass leaves the player
untouched. -/
theorem ensure_sizes_sync (g : Game) (h : g.player.width ≠ 0) :
    g.ensureConsistentCharacterSizes.player = g.player ∧
    ∀ npc ∈ g.ensureConsistentCharacterSizes.npcs,
      npc.width = g.player.width ∧ npc.height = g.player.width := by
  constructor
  · simp [Game.ensureConsistentCharacterSizes, h]
  · intro npc hmem
    simp only [Game.ensureConsistentCharacterSizes, if_neg h, List.mem_map] at hmem
    obtain ⟨orig, _, rfl⟩ := hmem
    by_cases hc : orig.width ≠ g.player.width ∨ orig.height ≠ g.player.width
    · simp [hc]
    · push_neg at hc
      simp [hc.1, hc.2]

/-- Witness for C5 on `exGameDrift`: the drifted NPC (size 100) is repaired
to the player's 40. -/
theorem ensure_sizes_sync_witness :
    ({ name := "la_jolla", x := 15 / 100, y := 25 / 100, width := 40, height := 40 } : NPC).width
      = exGameDrift.player.width ∧
    ({ name := "la_jolla", x := 15 / 100, y := 25 / 100, width := 40, height := 40 } : NPC).height
      = exGameDrift.player.width := by
  have h := (ensure_sizes_sync exGameDrift (by norm_num [exGameDrift, exGame])).2
  exact h _ (by norm_num [Game.ensureConsistentCharacterSizes, exGameDrift, exGame])

/-- C3 is corrected: a click-to-move animation started before the chat opened
keeps moving the player while the chat is open — its `animate` frames call
`movePlayer` with no chat-state check.  Here the chat is open and the easing
frame at 250 ms moves the player from x = 100 to x = 187.5. -/
theorem anim_moves_while_chat_open_counterexample :
    exGameChatOpen.chatOpen = true ∧
    (exGameChatOpen.animStep exAnim 250).player.x ≠ exGameChatOpen.player.x := by
  refine ⟨rfl, ?_⟩
  norm_num [Game.animStep, Game.movePlayer, Game.checkCollision, Game.updateCamera,
    animDuration, exGameChatOpen, exGame, exAnim, obstacles, min_def]

/-- C3 (amended): while the chat is open, the per-tick key handler is a
no-op and a canvas click neither moves the player nor starts an animation;
only a click-to-move animation that was already in flight keeps mutating the
position. -/
theorem chat_open_blocks_input (g : Game) (h : g.chatOpen = true)
    (clientX clientY rectLeft rectTop now : ℚ) :
    g.handleInput = g ∧
    g.canvasClick clientX clientY rectLeft rectTop now = (g, none) := by
  constructor
  · simp [Game.handleInput, h]
  · simp [Game.canvasClick, h]

/-- Witness for C3 (amended) on `exGameChatOpen`. -/
theorem chat_open_blocks_input_witness :
    exGameChatOpen.handleInput = exGameChatOpen ∧
    exGameChatOpen.canvasClick 0 0 0 0 0 = (exGameChatOpen, none) :=
  chat_open_blocks_input exGameChatOpen rfl 0 0 0 0 0

/-! ### Movement frame lemmas -/

@[simp] theorem checkNPCProximityUpd_player (g : Game) :
    g.checkNPCProximityUpd.player = g.player := rfl

@[simp] theorem checkNPCProximityUpd_camera (g : Game) :
    g.checkNPCProximityUpd.camera = g.camera := rfl

@[simp] theorem checkNPCProximityUpd_currentDirection (g : Game) :
    g.checkNPCProximityUpd.currentDirection = g.currentDirection := rfl

@[simp] theorem checkNPCProximityUpd_positionReadout (g : Game) :
    g.checkNPCProximityUpd.positionReadout = g.positionReadout := rfl

theorem movePlayer_currentDirection (g : Game) (x y : ℚ) :
    (g.movePlayer x y).currentDirection = g.currentDirection := by
  unfold Game.movePlayer
  split <;> rfl

theorem movePlayer_reject (g : Game) (x y : ℚ) (h : g.checkCollision x y = true) :
    g.movePlayer x y = g := by
  simp [Game.movePlayer, h]

theorem movePlayer_accept_pos (g : Game) (x y : ℚ) (h : g.checkCollision x y = false) :
    (g.movePlayer x y).player.x = x ∧ (g.movePlayer x y).player.y = y := by
  simp [Game.movePlayer, h, Game.updateCamera]

/-- C8 is corrected: `handleInput` updates the sprite direction *before* the
collision gate.  With the player pinned at the top boundary and `w` held,
the move is rejected (the position stays put) yet `currentDirection` flips
from `front` to `behind`. -/
theorem handleInput_direction_on_reject_counterexample :
    exGameTopEdge.handleInput.player.x = exGameTopEdge.player.x ∧
    exGameTopEdge.handleInput.player.y = exGameTopEdge.player.y ∧
    exGameTopEdge.handleInput.currentDirection ≠ exGameTopEdge.currentDirection := by
  norm_num [Game.handleInput, Game.inputTarget, Game.updatePlayerDirection, Game.movePlayer,
    Game.checkCollision, Game.checkNPCProximityUpd, Game.selectNearby, Game.proximityScan,
    Game.updateCamera, exGameTopEdge, exGame, noKeys, obstacles]
  decide

/-- C8 (amended): per tick (chat closed), the position, camera and position
read-out change only on acceptance: a rejected move leaves all three
untouched, and an accepted move lands exactly on the computed target.  The
sprite direction, however, is selected from the movement-vector sign bits
(vertical axis dominant) whenever any movement key is active, regardless of
whether the move is accepted. -/
theorem handleInput_frame_effects (g : Game) (hchat : g.chatOpen = false) :
    (g.checkCollision g.inputTarget.1 g.inputTarget.2.1 = true →
      g.handleInput.player = g.player ∧
      g.handleInput.camera = g.camera ∧
      g.handleInput.positionReadout = g.positionReadout) ∧
    (g.checkCollision g.inputTarget.1 g.inputTarget.2.1 = false →
      g.handleInput.player.x = g.inputTarget.1 ∧
      g.handleInput.player.y = g.inputTarget.2.1) ∧
    (g.inputTarget.2.2.2 < 0 →
      g.handleInput.currentDirection =
        (if g.inputTarget.2.2.1 < 0 then Direction.behind_left
         else if g.inputTarget.2.2.1 > 0 then Direction.behind_right
         else Direction.behind)) ∧
    (g.inputTarget.2.2.2 > 0 →
      g.handleInput.currentDirection =
        (if g.inputTarget.2.2.1 < 0 then Direction.front_left
         else if g.inputTarget.2.2.1 > 0 then Direction.front_right
         else Direction.front)) ∧
    (g.inputTarget.2.2.2 = 0 → g.inputTarget.2.2.1 < 0 →
      g.handleInput.currentDirection = Direction.front_left) ∧
    (g.inputTarget.2.2.2 = 0 → g.inputTarget.2.2.1 > 0 →
      g.handleInput.currentDirection = Direction.front_right) ∧
    (g.inputTarget.2.2.2 = 0 → g.inputTarget.2.2.1 = 0 →
      g.handleInput.currentDirection = g.currentDirection) := by
  rcases ht : g.inputTarget with ⟨nX, nY, mX, mY⟩
  dsimp only
  have hunfold : g.handleInput =
      ((if mX ≠ 0 ∨ mY ≠ 0 then
          ({ g with lastMovementDirection := (mX, mY) }).updatePlayerDirection mX mY
        else g).movePlayer nX nY).checkNPCProximityUpd := by
    unfold Game.handleInput
    rw [ht]
    simp [hchat]
  set G1 := (if mX ≠ 0 ∨ mY ≠ 0 then
      ({ g with lastMovementDirection := (mX, mY) }).updatePlayerDirection mX mY
    else g) with hG1
  have hp : G1.player = g.player := by rw [hG1]; split <;> rfl
  have hcam : G1.camera = g.camera := by rw [hG1]; split <;> rfl
  have hread : G1.positionReadout = g.positionReadout := by rw [hG1]; split <;> rfl
  have hcc : G1.checkCollision nX nY = g.checkCollision nX nY := by rw [hG1]; split <;> rfl
  refine ⟨fun hc => ?_, fun hc => ?_, fun hmy => ?_, fun hmy => ?_,
    fun hmy hmx => ?_, fun hmy hmx => ?_, fun hmy hmx => ?_⟩
  · rw [hunfold, movePlayer_reject _ _ _ (by rw [hcc]; exact hc)]
    exact ⟨by simp [hp], by simp [hcam], by simp [hread]⟩
  · have ha := movePlayer_accept_pos G1 nX nY (by rw [hcc]; exact hc)
    rw [hunfold]
    simpa using ha
  · rw [hunfold]
    simp only [checkNPCProximityUpd_currentDirection, movePlayer_currentDirection]
    rw [hG1, if_pos (Or.inr (by omega)), Game.updatePlayerDirection]
    simp only [if_pos hmy]
  · rw [hunfold]
    simp only [checkNPCProximityUpd_currentDirection, movePlayer_currentDirection]
    rw [hG1, if_pos (Or.inr (by omega)), Game.updatePlayerDirection]
    simp only [if_neg (by omega : ¬ mY < 0), if_pos hmy]
  · rw [hunfold]
    simp only [checkNPCProximityUpd_currentDirection, movePlayer_currentDirection]
    rw [hG1, if_pos (Or.inl (by omega)), Game.updatePlayerDirection]
    simp only [if_neg (by omega : ¬ mY < 0), if_neg (by omega : ¬ mY > 0), if_pos hmx]
  · rw [hunfold]
    simp only [checkNPCProximityUpd_currentDirection, movePlayer_currentDirection]
    rw [hG1, if_pos (Or.inl (by omega)), Game.updatePlayerDirection]
    simp only [if_neg (by omega : ¬ mY < 0), if_neg (by omega : ¬ mY > 0),
      if_neg (by omega : ¬ mX < 0), if_pos hmx]
  · rw [hunfold]
    simp only [checkNPCProximityUpd_currentDirection, movePlayer_currentDirection]
    rw [hG1, if_neg (by omega : ¬ (mX ≠ 0 ∨ mY ≠ 0))]

/-- Witness for C8 (amended) on `exGameTopEdge`: the move up from the top
boundary is rejected and position, camera and read-out survive unchanged. -/
theorem handleInput_frame_effects_witness :
    exGameTopEdge.handleInput.player = exGameTopEdge.player ∧
    exGameTopEdge.handleInput.camera = exGameTopEdge.camera := by
  have h := handleInput_frame_effects exGameTopEdge rfl
  have hc : exGameTopEdge.checkCollision exGameTopEdge.inputTarget.1
      exGameTopEdge.inputTarget.2.1 = true := by
    norm_num [Game.inputTarget, Game.checkCollision, exGameTopEdge, exGame, noKeys]
  exact ⟨(h.1 hc).1, (h.1 hc).2.1⟩

/-! ### Proximity-scan lemmas -/

/-- `Math.sqrt d < r` is exactly the squared comparison `distLtP d r`. -/
theorem sqrt_lt_iff_sq (d r : ℚ) :
    Real.sqrt (d : ℝ) < (r : ℝ) ↔ distLtP d r := by
  unfold distLtP
  constructor
  · intro h
    have hr : (0 : ℝ) < (r : ℝ) := lt_of_le_of_lt (Real.sqrt_nonneg _) h
    have hrq : (0 : ℚ) < r := by exact_mod_cast hr
    refine ⟨hrq, ?_⟩
    have h2 : (d : ℝ) < (r : ℝ) ^ 2 := (Real.sqrt_lt' hr).mp h
    have h3 : (d : ℝ) < (r : ℝ) * (r : ℝ) := by nlinarith
    exact_mod_cast h3
  · rintro ⟨hr, hlt⟩
    have hr2 : (0 : ℝ) < (r : ℝ) := by exact_mod_cast hr
    refine (Real.sqrt_lt' hr2).mpr ?_
    have : (d : ℝ) < (r : ℝ) * (r : ℝ) := by exact_mod_cast hlt
    nlinarith

/-- On nonnegative squares, comparing `Math.sqrt` distances is comparing the
squares. -/
theorem sqrt_lt_sqrt_iff_sq (a b : ℚ) (ha : 0 ≤ a) :
    Real.sqrt (a : ℝ) < Real.sqrt (b : ℝ) ↔ a < b := by
  constructor
  · intro h
    by_contra hc
    push_neg at hc
    have : Real.sqrt (b : ℝ) ≤ Real.sqrt (a : ℝ) :=
      Real.sqrt_le_sqrt (by exact_mod_cast hc)
    linarith
  · intro h
    exact Real.sqrt_lt_sqrt (by exact_mod_cast ha) (by exact_mod_cast h)

/-- A squared distance is nonnegative. -/
theorem dist2_nonneg (g : Game) (npc : NPC) : 0 ≤ g.dist2 npc := by
  unfold Game.dist2
  exact add_nonneg (mul_self_nonneg _) (mul_self_nonneg _)

/-- Behaviour of the `checkNPCProximity` accumulation when it starts from a
stored candidate `b` with its own squared distance: either `b` survives and
is at least as close as every in-range NPC of the list, or the scan lands on
an in-range, strictly closer NPC that strictly beats every in-range NPC
before it and is at least as close as every in-range NPC after it. -/
theorem proximityScan_go_some (g : Game) (l : List NPC) :
    ∀ b : NPC,
      (l.foldl g.proximityStep (some b, some (g.dist2 b)) = (some b, some (g.dist2 b)) ∧
        ∀ n ∈ l, distLtP (g.dist2 n) g.interactionDistance → g.dist2 b ≤ g.dist2 n) ∨
      (∃ npc pre post, l = pre ++ npc :: post ∧
        distLtP (g.dist2 npc) g.interactionDistance ∧
        g.dist2 npc < g.dist2 b ∧
        l.foldl g.proximityStep (some b, some (g.dist2 b)) = (some npc, some (g.dist2 npc)) ∧
        (∀ m ∈ pre, distLtP (g.dist2 m) g.interactionDistance → g.dist2 npc < g.dist2 m) ∧
        (∀ m ∈ post, distLtP (g.dist2 m) g.interactionDistance → g.dist2 npc ≤ g.dist2 m)) := by
  induction l with
  | nil =>
    intro b
    left
    exact ⟨rfl, by simp⟩
  | cons n rest ih =>
    intro b
    by_cases hcond : distLtP (g.dist2 n) g.interactionDistance ∧ g.dist2 n < g.dist2 b
    · have hstep : List.foldl g.proximityStep (some b, some (g.dist2 b)) (n :: rest) =
          List.foldl g.proximityStep (some n, some (g.dist2 n)) rest := by
        simp only [List.foldl_cons]
        congr 1
        unfold Game.proximityStep
        exact if_pos ⟨hcond.1, hcond.2⟩
      rcases ih n with ⟨heq, hmin⟩ | ⟨npc, pre, post, hl, hq, hlt, heq, hpre, hpost⟩
      · right
        refine ⟨n, [], rest, rfl, hcond.1, hcond.2, hstep.trans heq, by simp, hmin⟩
      · right
        refine ⟨npc, n :: pre, post, by rw [hl, List.cons_append], hq, lt_trans hlt hcond.2,
          hstep.trans heq, ?_, hpost⟩
        intro m hm hqm
        rcases List.mem_cons.mp hm with rfl | hm2
        · exact hlt
        · exact hpre m hm2 hqm
    · have hstep : List.foldl g.proximityStep (some b, some (g.dist2 b)) (n :: rest) =
          List.foldl g.proximityStep (some b, some (g.dist2 b)) rest := by
        simp only [List.foldl_cons]
        congr 1
        unfold Game.proximityStep
        exact if_neg fun hcc => hcond ⟨hcc.1, hcc.2⟩
      rcases ih b with ⟨heq, hmin⟩ | ⟨npc, pre, post, hl, hq, hlt, heq, hpre, hpost⟩
      · left
        refine ⟨hstep.trans heq, ?_⟩
        intro m hm hqm
        rcases List.mem_cons.mp hm with rfl | hm2
        · by_contra hcon
          push_neg at hcon
          exact hcond ⟨hqm, hcon⟩
        · exact hmin m hm2 hqm
      · right
        refine ⟨npc, n :: pre, post, by rw [hl, List.cons_append], hq, hlt, hstep.trans heq, ?_, hpost⟩
        intro m hm hqm
        rcases List.mem_cons.mp hm with rfl | hm2
        · have hble : g.dist2 b ≤ g.dist2 m := by
            by_contra hx
            push_neg at hx
            exact hcond ⟨hqm, hx⟩
          linarith
        · exact hpre m hm2 hqm

/-- Behaviour of the full `checkNPCProximity` accumulation from the initial
`(null, Infinity)` accumulator. -/
theorem proximityScan_go_none (g : Game) (l : List NPC) :
    (l.foldl g.proximityStep (none, none) = (none, none) ∧
      ∀ n ∈ l, ¬ distLtP (g.dist2 n) g.interactionDistance) ∨
    (∃ npc pre post, l = pre ++ npc :: post ∧
      distLtP (g.dist2 npc) g.interactionDistance ∧
      l.foldl g.proximityStep (none, none) = (some npc, some (g.dist2 npc)) ∧
      (∀ m ∈ pre, distLtP (g.dist2 m) g.interactionDistance → g.dist2 npc < g.dist2 m) ∧
      (∀ m ∈ post, distLtP (g.dist2 m) g.interactionDistance → g.dist2 npc ≤ g.dist2 m)) := by
  induction l with
  | nil =>
    left
    exact ⟨rfl, by simp⟩
  | cons n rest ih =>
    by_cases hq : distLtP (g.dist2 n) g.interactionDistance
    · have hstep : List.foldl g.proximityStep (none, none) (n :: rest) =
          List.foldl g.proximityStep (some n, some (g.dist2 n)) rest := by
        simp only [List.foldl_cons]
        congr 1
        unfold Game.proximityStep
        exact if_pos ⟨hq, trivial⟩
      rcases proximityScan_go_some g rest n with ⟨heq, hmin⟩ |
        ⟨npc, pre, post, hl, hq2, hlt, heq, hpre, hpost⟩
      · right
        exact ⟨n, [], rest, rfl, hq, hstep.trans heq, by simp, hmin⟩
      · right
        refine ⟨npc, n :: pre, post, by rw [hl, List.cons_append], hq2, hstep.trans heq, ?_, hpost⟩
        intro m hm hqm
        rcases List.mem_cons.mp hm with rfl | hm2
        · exact hlt
        · exact hpre m hm2 hqm
    · have hstep : List.foldl g.proximityStep (none, none) (n :: rest) =
          List.foldl g.proximityStep (none, none) rest := by
        simp only [List.foldl_cons]
        congr 1
        unfold Game.proximityStep
        exact if_neg fun hcc => hq hcc.1
      rcases ih with ⟨heq, hnone⟩ | ⟨npc, pre, post, hl, hq2, heq, hpre, hpost⟩
      · left
        refine ⟨hstep.trans heq, ?_⟩
        intro m hm
        rcases List.mem_cons.mp hm with rfl | hm2
        · exact hq
        · exact hnone m hm2
      · right
        refine ⟨npc, n :: pre, post, by rw [hl, List.cons_append], hq2, hstep.trans heq, ?_, hpost⟩
        intro m hm hqm
        rcases List.mem_cons.mp hm with rfl | hm2
        · exact absurd hqm hq
        · exact hpre m hm2 hqm

/-- C7: `checkNPCProximity` selects the NPC of minimal Euclidean distance
(fractional position mapped to world coordinates) among those strictly
within `interactionDistance`; it yields `null` when no NPC is in range;
exact ties go to the first such NPC in iteration order (everything strictly
earlier that is in range is strictly farther); and the selection ignores
the previously stored `nearbyNPC`, so re-running it on the updated state is
idempotent. -/
theorem checkNPCProximity_spec (g : Game) :
    (∀ npc, g.selectNearby = some npc →
      npc ∈ g.npcs ∧
      Real.sqrt ((g.dist2 npc : ℚ) : ℝ) < ((g.interactionDistance : ℚ) : ℝ) ∧
      (∀ m ∈ g.npcs,
        Real.sqrt ((g.dist2 m : ℚ) : ℝ) < ((g.interactionDistance : ℚ) : ℝ) →
        Real.sqrt ((g.dist2 npc : ℚ) : ℝ) ≤ Real.sqrt ((g.dist2 m : ℚ) : ℝ)) ∧
      (∃ pre post, g.npcs = pre ++ npc :: post ∧
        ∀ m ∈ pre,
          Real.sqrt ((g.dist2 m : ℚ) : ℝ) < ((g.interactionDistance : ℚ) : ℝ) →
          Real.sqrt ((g.dist2 npc : ℚ) : ℝ) < Real.sqrt ((g.dist2 m : ℚ) : ℝ))) ∧
    (g.selectNearby = none →
      ∀ m ∈ g.npcs, ¬ Real.sqrt ((g.dist2 m : ℚ) : ℝ) < ((g.interactionDistance : ℚ) : ℝ)) ∧
    (∀ o : Option NPC, Game.selectNearby { g with nearbyNPC := o } = g.selectNearby) ∧
    g.checkNPCProximityUpd.checkNPCProximityUpd = g.checkNPCProximityUpd := by
  refine ⟨?_, ?_, fun o => rfl, rfl⟩
  · intro npc hsel
    unfold Game.selectNearby Game.proximityScan at hsel
    rcases proximityScan_go_none g g.npcs with ⟨heq, _⟩ |
      ⟨npc0, pre, post, hl, hq, heq, hpre, hpost⟩
    · rw [heq] at hsel
      exact absurd hsel (by simp)
    · rw [heq] at hsel
      have hnpc : npc0 = npc := by simpa using hsel
      subst hnpc
      refine ⟨?_, (sqrt_lt_iff_sq _ _).mpr hq, ?_, pre, post, hl, ?_⟩
      · rw [hl]
        exact List.mem_append.mpr (Or.inr (List.mem_cons_self _ _))
      · intro m hm hqm
        have hqm2 := (sqrt_lt_iff_sq _ _).mp hqm
        have hle : g.dist2 npc0 ≤ g.dist2 m := by
          rw [hl] at hm
          rcases List.mem_append.mp hm with hm1 | hm1
          · exact le_of_lt (hpre m hm1 hqm2)
          · rcases List.mem_cons.mp hm1 with rfl | hm2
            · exact le_refl _
            · exact hpost m hm2 hqm2
        exact Real.sqrt_le_sqrt (by exact_mod_cast hle)
      · intro m hm hqm
        have hqm2 := (sqrt_lt_iff_sq _ _).mp hqm
        exact (sqrt_lt_sqrt_iff_sq _ _ (dist2_nonneg g npc0)).mpr (hpre m hm hqm2)
  · intro hsel m hm hqm
    unfold Game.selectNearby Game.proximityScan at hsel
    rcases proximityScan_go_none g g.npcs with ⟨heq, hnone⟩ |
      ⟨npc0, pre, post, hl, hq, heq, hpre, hpost⟩
    · exact hnone m hm ((sqrt_lt_iff_sq _ _).mp hqm)
    · rw [heq] at hsel
      exact absurd hsel (by simp)

/-- Witness for C7 on `exGameProx`: the scan selects `exNpcNear`, which is a
member of the roster and within interaction range. -/
theorem checkNPCProximity_spec_witness :
    exNpcNear ∈ exGameProx.npcs ∧
    Real.sqrt ((exGameProx.dist2 exNpcNear : ℚ) : ℝ) <
      ((exGameProx.interactionDistance : ℚ) : ℝ) := by
  have hsel : exGameProx.selectNearby = some exNpcNear := by
    norm_num [Game.selectNearby, Game.proximityScan, Game.proximityStep, Game.dist2,
      distLtP, closerThanP, exGameProx, exGame, exNpcNear, exNpcFar]
  have h := (checkNPCProximity_spec exGameProx).1 exNpcNear hsel
  exact ⟨h.1, h.2.1⟩

end LocalLegends
